import Mathlib

/-!
Verification of the music-discord-rich-presence core against its
natural-language specification.

The development shallowly embeds the relevant parts of the source:

* `SongInfo._ensure_unicode` (src/music_rpc/core/song_info.py, lines 86-144)
  is embedded over `List Nat` (Unicode code points), so that code points that
  are not valid Lean `Char`s (lone surrogates, which Python's `chr` accepts)
  are representable.  The library call `unicodedata.normalize("NFC", ·)` is an
  external collaborator and is taken as a function parameter `nfc`; the only
  facts used about it are stated as hypotheses (idempotence, which the Unicode
  standard guarantees for NFC), and for concrete counterexamples it is
  instantiated at `nfcAscii` (NFC is the identity on pure-ASCII text).
* `Config` (src/music_rpc/config/settings.py) becomes a structure of
  insertion-ordered association lists (Python dicts preserve insertion order).
* `SongInfoRetriever` (src/music_rpc/core/song_info.py) becomes a state
  machine over an explicit cache state; the Deezer HTTP API and the
  `nowplaying-cli` probe are oracles supplied as `ApiWorld` / `ProbeWorld`.
* `DiscordPresenceManager` (src/music_rpc/core/discord_presence.py) becomes a
  state machine that also records the transcript of calls made to the
  underlying rich-presence protocol.

Exceptions in the source that are caught and turned into default values are
modelled by those default values; `requests` timeouts/failures are part of the
oracle's answer (`none` / `false`).  Python object aliasing between the two
cache keys of the same `SongInfo` object is not modelled (the claims below
only concern cache membership and call counts, never the volatile fields of a
stale entry).
-/

/-! ### Unicode normalizer: `SongInfo._ensure_unicode` over code points -/

/-- Value of an ASCII hex digit, as in Python's `int(hex_val, 16)` applied to
one digit; `none` if the code point is not `[0-9a-fA-F]`. -/
def hexDigitVal (n : Nat) : Option Nat :=
  if 48 ≤ n ∧ n ≤ 57 then some (n - 48)
  else if 65 ≤ n ∧ n ≤ 70 then some (n - 55)
  else if 97 ≤ n ∧ n ≤ 102 then some (n - 87)
  else none

/-- Value of the four-hex-digit group of a `\uXXXX` escape. -/
def hex4 (a b c d : Nat) : Option Nat :=
  match hexDigitVal a, hexDigitVal b, hexDigitVal c, hexDigitVal d with
  | some x, some y, some z, some w => some (((x * 16 + y) * 16 + z) * 16 + w)
  | _, _, _, _ => none

/-- Value of the eight-hex-digit group of a `\UXXXXXXXX` escape. -/
def hex8 (a b c d e f g h : Nat) : Option Nat :=
  match hex4 a b c d, hex4 e f g h with
  | some x, some y => some (x * 65536 + y)
  | _, _ => none

/-- Whether the code-point list contains the two adjacent code points
`p1, p2` (Python's `'\\u' in text` / `'\\U' in text` substring tests). -/
def hasSub2 (p1 p2 : Nat) : List Nat → Bool
  | [] => false
  | [_] => false
  | x :: y :: rest => (x == p1 && y == p2) || hasSub2 p1 p2 (y :: rest)

/-- Fuel-indexed worker for `decodeU4`. -/
def decodeU4Fuel : Nat → List Nat → List Nat
  | 0, l => l
  | _ + 1, [] => []
  | fuel + 1, x :: rest =>
    if x = 92 then
      match rest with
      | 117 :: a :: b :: c :: d :: rest2 =>
        match hex4 a b c d with
        | some v => v :: decodeU4Fuel fuel rest2
        | none => x :: decodeU4Fuel fuel rest
      | _ => x :: decodeU4Fuel fuel rest
    else x :: decodeU4Fuel fuel rest

/-- `re.sub(r'\\u([0-9a-fA-F]{4})', chr∘int, text)`: left-to-right,
non-overlapping replacement of `\uXXXX` escapes by the code point.  `chr`
never fails for values ≤ 0xFFFF, so this pass is total.  The fuel argument
only serves structural recursion: every step consumes at least one list
element and one unit of fuel, so `l.length` fuel is never exhausted. -/
def decodeU4 (l : List Nat) : List Nat := decodeU4Fuel l.length l

/-- Fuel-indexed worker for `decodeU8Go`. -/
def decodeU8Fuel : Nat → List Nat → Option (List Nat)
  | 0, l => some l
  | _ + 1, [] => some []
  | fuel + 1, x :: rest =>
    if x = 92 then
      match rest with
      | 85 :: a :: b :: c :: d :: e :: f :: g :: h :: rest2 =>
        match hex8 a b c d e f g h with
        | some v =>
          if v ≤ 0x10FFFF then (decodeU8Fuel fuel rest2).map (fun r => v :: r)
          else none
        | none => (decodeU8Fuel fuel rest).map (fun r => x :: r)
      | _ => (decodeU8Fuel fuel rest).map (fun r => x :: r)
    else (decodeU8Fuel fuel rest).map (fun r => x :: r)

/-- One scan of `re.sub(r'\\U([0-9a-fA-F]{8})', chr∘int, text)`.  Returns
`none` when some matched value exceeds 0x10FFFF: there Python's `chr` raises
inside `re.sub`, the enclosing `except` fires and the text is left unchanged
as a whole.  The fuel argument only serves structural recursion: every step
consumes at least one list element and one unit of fuel, so `l.length` fuel
is never exhausted. -/
def decodeU8Go (l : List Nat) : Option (List Nat) := decodeU8Fuel l.length l

/-- The `\UXXXXXXXX` decoding step with its `try/except` wrapper: on a `chr`
failure the text is returned unchanged. -/
def decodeU8 (l : List Nat) : List Nat := (decodeU8Go l).getD l

/-- The two escape-decoding steps of `_ensure_unicode`: the `\uXXXX` pass is
run only when the text contains `\u`, then the `\UXXXXXXXX` pass only when
the (possibly already rewritten) text contains `\U`, exactly as the two
guarded `re.sub` blocks do. -/
def pyDecode (t : List Nat) : List Nat :=
  let t1 := if hasSub2 92 117 t then decodeU4 t else t
  if hasSub2 92 85 t1 then decodeU8 t1 else t1

/-- `SongInfo._ensure_unicode` restricted to its text domain (`None` or a
string of code points); the non-string coercion branches are outside the
claim.  `nfc` stands for the external `unicodedata.normalize("NFC", ·)`. -/
def ensure_unicode (nfc : List Nat → List Nat) : Option (List Nat) → Option (List Nat)
  | none => none
  | some t => some (nfc (pyDecode t))

/-- NFC restricted to pure-ASCII text, where it is the identity (ASCII has no
composing or decomposable characters); used to instantiate the `nfc`
parameter on ASCII-only concrete inputs. -/
def nfcAscii : List Nat → List Nat := fun l => l

/-- The code points of the ASCII text `\u005Cu0041` (backslash, `u`, `0`,
`0`, `5`, `C`, `u`, `0`, `0`, `4`, `1`). -/
def escapeTrap : List Nat := [92, 117, 48, 48, 53, 67, 117, 48, 48, 52, 49]

/-! ### Config (src/music_rpc/config/settings.py) -/

/-- `Config.DISCORD_CLIENT_ID`, the built-in default client ID. -/
def DISCORD_CLIENT_ID : String := "1352843252067209368"

/-- `Config.USE_ALBUM_ART`, a class constant never overwritten at runtime. -/
def USE_ALBUM_ART : Bool := true

/-- `Config.DEFAULT_DISCORD_CLIENT_IDS` in insertion order. -/
def DEFAULT_DISCORD_CLIENT_IDS : List (String × String) :=
  [("Deezer", "1352674859670310992"),
   ("Music", "1352841157159288894"),
   ("iTunes", "1352841157159288894"),
   ("Tidal", "1352842418327912529")]

/-- `Config.DEFAULT_PLAYER_ALIASES` in insertion order (keys lowercase). -/
def DEFAULT_PLAYER_ALIASES : List (String × String) :=
  [("apple music", "Music"),
   ("music.app", "Music"),
   ("musicapp", "Music"),
   ("applemusic", "Music"),
   ("deezer", "Deezer"),
   ("itunes", "iTunes"),
   ("tidal", "Tidal")]

/-- The runtime-mutable part of `Config`.  The dictionaries are modelled as
insertion-ordered association lists, matching Python dict iteration order. -/
structure Config where
  update_interval : Int := 10
  discord_client_ids : List (String × String) := DEFAULT_DISCORD_CLIENT_IDS
  player_aliases : List (String × String) := DEFAULT_PLAYER_ALIASES
  disabled_players : List String := ["Music"]
deriving DecidableEq, Repr

/-- A fresh `Config()` built from the class defaults (no config file). -/
def defaultConfig : Config := {}

/-- The argument domain of `Config.set_update_interval` (its annotation is
`Union[str, int]`). -/
inductive PyVal where
  | int (n : Int)
  | str (s : String)
deriving DecidableEq, Repr

/-- Digit run of Python's `int(string)` after the first digit: digits with
single underscores allowed only between digits. -/
def pyDigits (acc : Nat) : List Char → Option Nat
  | [] => some acc
  | c :: rest =>
    if c.isDigit then pyDigits (acc * 10 + (c.toNat - 48)) rest
    else if c = '_' then
      match rest with
      | d :: rest2 =>
        if d.isDigit then pyDigits (acc * 10 + (d.toNat - 48)) rest2 else none
      | [] => none
    else none

/-- Digit part of Python's `int(string)`: at least one digit required. -/
def pyDigitsStart : List Char → Option Nat
  | [] => none
  | c :: rest => if c.isDigit then pyDigits (c.toNat - 48) rest else none

/-- ASCII whitespace stripped by Python's `int(string)`. -/
def isPySpace (c : Char) : Bool :=
  c = ' ' || c = '\t' || c = '\n' || c = '\r' || c = '\x0b' || c = '\x0c'

/-- Strip leading and trailing whitespace from a character list. -/
def pyStrip (l : List Char) : List Char :=
  ((l.dropWhile isPySpace).reverse.dropWhile isPySpace).reverse

/-- Python's `int(string)` (base 10): strip whitespace, optional sign, digit
run; `none` models the `ValueError`. -/
def pyIntOfString (s : String) : Option Int :=
  match pyStrip s.data with
  | [] => none
  | c :: rest =>
    if c = '+' then (pyDigitsStart rest).map Int.ofNat
    else if c = '-' then (pyDigitsStart rest).map (fun n => -(n : Int))
    else (pyDigitsStart (c :: rest)).map Int.ofNat

/-- Python's `int(interval)` over the annotated `Union[str, int]` domain;
on an `int` it is the identity and never raises. -/
def pyInt : PyVal → Option Int
  | .int n => some n
  | .str s => pyIntOfString s

/-- `Config.set_update_interval` (settings.py lines 65-84).  `save_config`
only performs file I/O and does not change the in-memory state; it is omitted.
Returns (success, message, new state). -/
def set_update_interval (cfg : Config) (interval : PyVal) : Bool × String × Config :=
  match pyInt interval with
  | some v =>
    if 5 ≤ v ∧ v ≤ 60 then
      (true, "Update interval set to " ++ toString v ++ " seconds",
       { cfg with update_interval := v })
    else
      (false, "Invalid interval. Using default " ++ toString cfg.update_interval ++ " seconds",
       cfg)
  | none =>
    (false, "Invalid input. Using default " ++ toString cfg.update_interval ++ " seconds",
     cfg)

/-- Python's `str.lower()` restricted to ASCII (all player names and aliases
in this program are ASCII). -/
def pyLowerChar (c : Char) : Char :=
  if 'A' ≤ c ∧ c ≤ 'Z' then Char.ofNat (c.toNat + 32) else c

/-- Lowercase a string, character-wise. -/
def pyLower (s : String) : String := String.mk (s.data.map pyLowerChar)

/-- The `normalized_name` computation of `Config.get_client_id` (settings.py
lines 125-134): alias-table lookup of the lowercased name, else the first
configured player whose lowercased name matches. -/
def resolveName (cfg : Config) (p : String) : Option String :=
  match List.lookup (pyLower p) cfg.player_aliases with
  | some n => some n
  | none =>
    (cfg.discord_client_ids.find? (fun kv => pyLower kv.fst == pyLower p)).map Prod.fst

/-- The tail of `Config.get_client_id` from line 137 on, as a function of the
`normalized_name` value. -/
def get_client_id_resolved (cfg : Config) : Option String → Option String
  | some n =>
    if n ≠ "" ∧ n ∈ cfg.disabled_players then none
    else if n ≠ "" then
      some ((List.lookup n cfg.discord_client_ids).getD DISCORD_CLIENT_ID)
    else some DISCORD_CLIENT_ID
  | none => some DISCORD_CLIENT_ID

/-- `Config.get_client_id` (settings.py lines 110-145).  `player_name` is
`Optional[str]`; Python's `if not player_name` treats `None` and the empty
string alike. -/
def get_client_id (cfg : Config) (player_name : Option String) : Option String :=
  match player_name with
  | none => some DISCORD_CLIENT_ID
  | some p =>
    if p = "" then some DISCORD_CLIENT_ID
    else get_client_id_resolved cfg (resolveName cfg p)

/-! ### SongInfo (src/music_rpc/core/song_info.py, class `SongInfo`) -/

/-- Python truthiness of an `Optional[str]`. -/
def optStrTruthy : Option String → Bool
  | some s => s ≠ ""
  | none => false

/-- Python's `x or d` for an optional string `x` and string default `d`. -/
def pyOrStr (o : Option String) (d : String) : String :=
  match o with
  | some s => if s = "" then d else s
  | none => d

/-- Python's `x or y` for two optional strings. -/
def pyOrOpt (a b : Option String) : Option String :=
  match a with
  | some s => if s = "" then b else some s
  | none => b

/-- Python's `x or d` for an optional number (`0` is falsy). -/
def pyOrIntOpt (a : Option Int) (d : Int) : Int :=
  match a with
  | some n => if n = 0 then d else n
  | none => d

/-- The keyword arguments of `SongInfo.__init__`, with its default values. -/
structure SongArgs where
  title : Option String := none
  artist : Option String := none
  album : Option String := none
  album_cover : Option String := none
  artist_image : Option String := none
  song_link : Option String := none
  duration : Int := 0
  elapsed : Int := 0
  playing : Bool := false
  player : Option String := none
  position : Option Int := none
  start_time : Option Int := none
  end_time : Option Int := none
  album_art_url : Option String := none
deriving DecidableEq, Repr

/-- The fields of a constructed `SongInfo` object.  Timing fields are modelled
at integer granularity; no claim below depends on fractional seconds. -/
structure SongInfo where
  title : String
  artist : String
  album : Option String
  album_cover : Option String
  artist_image : Option String
  song_link : Option String
  duration : Int
  elapsed : Int
  playing : Bool
  player : Option String
  position : Int
  start_time : Option Int
  end_time : Option Int
  album_art_url : Option String
deriving DecidableEq, Repr

/-- `SongInfo.__init__` (song_info.py lines 70-84).  `norm` is the instance's
`_ensure_unicode` on strings (`Option.map` gives its `None ↦ None` clause);
text fields are normalized and `None`/empty title and artist fall back to the
sentinels, exactly as `self.title = self._ensure_unicode(title) or "Not
playing"` does. -/
def mkSongInfo (norm : String → String) (a : SongArgs) : SongInfo :=
  { title := pyOrStr (a.title.map norm) "Not playing"
    artist := pyOrStr (a.artist.map norm) "Unknown Artist"
    album := a.album.map norm
    album_cover := a.album_cover
    artist_image := a.artist_image
    song_link := a.song_link
    duration := a.duration
    elapsed := a.elapsed
    playing := a.playing
    player := a.player.map norm
    position := pyOrIntOpt a.position a.elapsed
    start_time := a.start_time
    end_time := a.end_time
    album_art_url := pyOrOpt a.album_art_url a.album_cover }

/-- `SongInfo.is_playing` (song_info.py lines 146-152). -/
def SongInfo.is_playing (s : SongInfo) : Bool :=
  s.title != "Not playing" && s.playing

/-! ### Catalog search engine (class `SongInfoRetriever`) -/

/-- One track of a Deezer API JSON answer; `none` fields model absent keys. -/
structure ApiSong where
  title : Option String := none
  artist_name : Option String := none
  cover_medium : Option String := none
  picture_small : Option String := none
  link : Option String := none
deriving DecidableEq, Repr

/-- The network oracle for one enrichment pass: `search q` is the first entry
of `data` for `GET <search-endpoint>?q=q` (`none` for an empty result list,
malformed JSON, timeout or any other request failure, all of which the code
turns into the same outcome), `headOk url` says whether a `HEAD url` request
round-trips with HTTP 200, and `now_playing` is what `get_now_playing()`
reports while the pass runs. -/
structure ApiWorld where
  search : String → Option ApiSong
  headOk : String → Bool
  now_playing : SongInfo

/-- The Czech-specific characters of `_contains_czech_chars`. -/
def czech_chars : List Char :=
  ['ě', 'š', 'č', 'ř', 'ž', 'ý', 'á', 'í', 'é', 'ú', 'ů', 'ť', 'ď', 'ň', 'ó',
   'Ě', 'Š', 'Č', 'Ř', 'Ž', 'Ý', 'Á', 'Í', 'É', 'Ú', 'Ů', 'Ť', 'Ď', 'Ň', 'Ó']

/-- `_contains_czech_chars` (song_info.py lines 655-670). -/
def contains_czech_chars (s : String) : Bool :=
  s.data.any (fun c => czech_chars.contains c)

/-- NFD decomposition with the combining mark dropped, modelled from the
Unicode tables for the Latin repertoire this program targets; identity on
characters outside the table. -/
def stripChar (c : Char) : Char :=
  match c with
  | 'ě' => 'e' | 'š' => 's' | 'č' => 'c' | 'ř' => 'r' | 'ž' => 'z' | 'ý' => 'y'
  | 'á' => 'a' | 'í' => 'i' | 'é' => 'e' | 'ú' => 'u' | 'ů' => 'u' | 'ť' => 't'
  | 'ď' => 'd' | 'ň' => 'n' | 'ó' => 'o'
  | 'Ě' => 'E' | 'Š' => 'S' | 'Č' => 'C' | 'Ř' => 'R' | 'Ž' => 'Z' | 'Ý' => 'Y'
  | 'Á' => 'A' | 'Í' => 'I' | 'É' => 'E' | 'Ú' => 'U' | 'Ů' => 'U' | 'Ť' => 'T'
  | 'Ď' => 'D' | 'Ň' => 'N' | 'Ó' => 'O'
  | c => c

/-- A standalone combining mark (Unicode block 0x300-0x36F), removed by the
`category(c) != "Mn"` filter. -/
def isCombining (c : Char) : Bool :=
  0x300 ≤ c.toNat && c.toNat ≤ 0x36F

/-- `_remove_diacritics` (song_info.py lines 832-851): NFD-decompose and drop
combining marks. -/
def remove_diacritics (s : String) : String :=
  String.mk ((s.data.map stripChar).filter (fun c => !isCombining c))

/-- The `query_text` built by `_search_deezer` (song_info.py lines 541-552):
plain concatenation when the artist has Czech characters, a structured
`artist:"..." track:"..."` query otherwise, and a `track:"..."` query when no
artist is given.  The oracle is keyed by this text (URL-encoding is a
bijective transport and is left out). -/
def deezer_query (artist_name song_title : String) : String :=
  if artist_name ≠ "" ∧ contains_czech_chars artist_name then
    artist_name ++ " " ++ song_title
  else if artist_name ≠ "" then
    "artist:\"" ++ artist_name ++ "\" track:\"" ++ song_title ++ "\""
  else
    "track:\"" ++ song_title ++ "\""

/-- What one search stage hands back: the `song_details` dict (`playing` is
the constant `True` in every construction site and is dropped). -/
structure Details where
  title : String
  artist : String
  album_cover : String
  artist_image : String
  song_link : Option String
  duration : Int
  elapsed : Int
  player : Option String
deriving DecidableEq, Repr

/-- Artwork-URL acceptance: `USE_ALBUM_ART` gate, truthy URL, then the HEAD
reachability check; an exception during the check leaves the URL rejected. -/
def verifyArt (w : ApiWorld) (o : Option String) : Option String :=
  if USE_ALBUM_ART then
    match o with
    | some url => if url ≠ "" ∧ w.headOk url then some url else none
    | none => none
  else none

/-- `now_playing_data.duration or 0` (identical to the stored duration over
integers). -/
def nowDuration (w : ApiWorld) : Int := w.now_playing.duration

/-- `now_playing_data.elapsed or 0`. -/
def nowElapsed (w : ApiWorld) : Int := w.now_playing.elapsed

/-- `player_name or now_playing_data.player`. -/
def nowPlayer (w : ApiWorld) (player_name : Option String) : Option String :=
  pyOrOpt player_name w.now_playing.player

/-- The `song_details` dict built by `_search_deezer` on a hit, as a function
of the `song["link"]` access: a missing `"link"` key raises `KeyError` and is
caught by the blanket handler, yielding `None`. -/
def search_deezer_hit (norm : String → String) (w : ApiWorld)
    (artist_name song_title : String) (player_name : Option String)
    (song : ApiSong) : Option String → Option Details
  | none => none
  | some link =>
    some { title := norm (song.title.getD song_title)
           artist := norm (song.artist_name.getD artist_name)
           album_cover := (verifyArt w song.cover_medium).getD "music_logo"
           artist_image := (verifyArt w song.picture_small).getD "music_icon"
           song_link := some link
           duration := nowDuration w
           elapsed := nowElapsed w
           player := nowPlayer w player_name }

/-- `_search_deezer` past the HTTP call, as a function of the answer. -/
def search_deezer_answer (norm : String → String) (w : ApiWorld)
    (artist_name song_title : String) (player_name : Option String) :
    Option ApiSong → Option Details
  | none => none
  | some song => search_deezer_hit norm w artist_name song_title player_name song song.link

/-- `_search_deezer` (song_info.py lines 527-653).  Display fields come from
the API answer (`song.get("title", song_title)` / artist name), normalized. -/
def search_deezer (norm : String → String) (w : ApiWorld)
    (artist_name song_title : String) (player_name : Option String) : Option Details :=
  search_deezer_answer norm w artist_name song_title player_name
    (w.search (deezer_query artist_name song_title))

/-- The tail of `_try_alternative_search` on a hit, as a function of the
verified album-cover URL: only an art-bearing answer produces a result, and
it keeps the original title and artist. -/
def try_alternative_art (w : ApiWorld) (song_title artist_name : String)
    (player_name : Option String) (song : ApiSong) : Option String → Option Details
  | none => none
  | some url =>
    some { title := song_title
           artist := artist_name
           album_cover := url
           artist_image := "music_icon"
           song_link := some (song.link.getD "")
           duration := nowDuration w
           elapsed := nowElapsed w
           player := nowPlayer w player_name }

/-- `_try_alternative_search` past the HTTP call. -/
def try_alternative_answer (w : ApiWorld) (song_title artist_name : String)
    (player_name : Option String) : Option ApiSong → Option Details
  | none => none
  | some song =>
    try_alternative_art w song_title artist_name player_name song
      (verifyArt w song.cover_medium)

/-- `_try_alternative_search` (song_info.py lines 968-1060): one query of the
fallback cascade. -/
def try_alternative_search (w : ApiWorld) (query song_title artist_name : String)
    (player_name : Option String) : Option Details :=
  try_alternative_answer w song_title artist_name player_name (w.search query)

/-- The gate between stages of `get_song_via_api`: `not song_details or not
song_details.get("album_cover") or song_details["album_cover"] ==
"music_logo"` is the negation of this (an `album_cover` field is always
nonempty: a verified URL or the sentinel). -/
def art_bearing : Option Details → Bool
  | some d => d.album_cover != "music_logo"
  | none => false

/-- The search cascade of `get_song_via_api` (song_info.py lines 446-467),
applied to already-normalized title and artist; also returns the list of
issued queries in order.  Stage 1: artist+title; stage 2: title-only, gated
on stage 1 not art-bearing; stage 3: diacritic-stripped, gated on Czech
characters being present and the result so far not art-bearing. -/
def search_cascade (norm : String → String) (w : ApiWorld)
    (song_title artist_name : String) (player_name : Option String) :
    Option Details × List String :=
  let q1 := deezer_query artist_name song_title
  let d1 := search_deezer norm w artist_name song_title player_name
  let s2 :=
    if !art_bearing d1 then
      let r := search_deezer norm w "" song_title player_name
      (if art_bearing r then r else d1, [deezer_query "" song_title])
    else (d1, [])
  let has_czech := contains_czech_chars song_title || contains_czech_chars artist_name
  let s3 :=
    if has_czech && !art_bearing s2.1 then
      let na := remove_diacritics artist_name
      let nt := remove_diacritics song_title
      let r := search_deezer norm w na nt player_name
      (if art_bearing r then r else s2.1, [deezer_query na nt])
    else (s2.1, [])
  (s3.1, q1 :: (s2.2 ++ s3.2))

/-! ### Retriever state machine (`get_song_via_api`, `get_current_song_info`) -/

/-- The mutable state of a `SongInfoRetriever`: the `song_cache` dict (both
`t::a` keys of `get_song_via_api` and `t|a|p` keys of `get_current_song_info`
live in this one dict) and `last_song_key`. -/
structure RetrieverState where
  song_cache : List (String × SongInfo) := []
  last_song_key : Option String := none
deriving DecidableEq, Repr

/-- Python dict assignment `d[k] = v`: replace the existing binding in place
or append a new one. -/
def dictSet : List (String × SongInfo) → String → SongInfo → List (String × SongInfo)
  | [], k, v => [(k, v)]
  | (k0, v0) :: rest, k, v =>
    if k0 = k then (k0, v) :: rest else (k0, v0) :: dictSet rest k v

/-- The `song_details` used by `get_song_via_api` after the cascade: the
cascade's result, or the default sentinel details built from the probe data
when the cascade found nothing. -/
def cascade_details (w : ApiWorld) (t a : String) (player_name : Option String) :
    Option Details → Details
  | some d => d
  | none =>
    { title := t, artist := a, album_cover := "music_logo",
      artist_image := "music_icon", song_link := none,
      duration := nowDuration w, elapsed := nowElapsed w,
      player := nowPlayer w player_name }

/-- The body of `get_song_via_api` as a function of the cache lookup: a hit
backfills the stored entry's `player` when the stored one is falsy; a miss
normalizes title and artist, runs the cascade, and caches the constructed
`SongInfo` under `title::artist`.  The `Bool` records whether the
network-touching catalog search ran. -/
def get_song_via_api_cached (norm : String → String) (w : ApiWorld)
    (st : RetrieverState) (song_title artist_name : String)
    (player_name : Option String) (cache_key : String) :
    Option SongInfo → SongInfo × RetrieverState × Bool
  | some cached =>
    let cached2 :=
      if optStrTruthy player_name && !optStrTruthy cached.player then
        { cached with player := player_name }
      else cached
    (cached2, { st with song_cache := dictSet st.song_cache cache_key cached2 }, false)
  | none =>
    let t := norm song_title
    let a := norm artist_name
    let details := cascade_details w t a player_name (search_cascade norm w t a player_name).1
    let song := mkSongInfo norm
      { title := some details.title, artist := some details.artist,
        album_cover := some details.album_cover,
        artist_image := some details.artist_image,
        song_link := details.song_link, duration := details.duration,
        elapsed := details.elapsed, playing := true, player := details.player }
    (song, { st with song_cache := dictSet st.song_cache cache_key song }, true)

/-- `get_song_via_api` (song_info.py lines 408-525). -/
def get_song_via_api (norm : String → String) (w : ApiWorld) (st : RetrieverState)
    (song_title artist_name : String) (player_name : Option String) :
    SongInfo × RetrieverState × Bool :=
  let cache_key := song_title ++ "::" ++ artist_name
  get_song_via_api_cached norm w st song_title artist_name player_name cache_key
    (List.lookup cache_key st.song_cache)

/-- Python's f-string rendering of an `Optional[str]` (`None` prints as
`"None"`), used by the `f"{title}|{artist}|{player}"` cache key. -/
def pyShow : Option String → String
  | some s => s
  | none => "None"

/-- `get_current_song_info` (song_info.py lines 1062-1145) for one already
probed sample (`probed` is what `check_now_playing()` returned).  Returns the
track, the new state, and - for the cache-identity analysis - the identity
for which the network-touching catalog search was invoked, if it was. -/
def get_current_song_info_cached (norm : String → String) (w : ApiWorld)
    (st : RetrieverState) (probed : SongInfo) (cache_key : String) :
    Option SongInfo → SongInfo × RetrieverState × Option (String × String)
  | some cached =>
    let cached2 := { cached with elapsed := probed.elapsed, playing := probed.playing }
    (cached2,
     { song_cache := dictSet st.song_cache cache_key cached2,
       last_song_key := some cache_key },
     none)
  | none =>
    let r := get_song_via_api norm w st probed.title probed.artist probed.player
    let enhanced :=
      { r.1 with
        player := probed.player, playing := probed.playing,
        elapsed := probed.elapsed,
        duration := if probed.duration ≠ 0 then probed.duration else r.1.duration }
    (enhanced,
     { song_cache := dictSet r.2.1.song_cache cache_key enhanced,
       last_song_key := some cache_key },
     if r.2.2 then some (probed.title, probed.artist) else none)

/-- See `get_current_song_info_cached` for the playing branches. -/
def get_current_song_info (norm : String → String) (w : ApiWorld)
    (st : RetrieverState) (probed : SongInfo) :
    SongInfo × RetrieverState × Option (String × String) :=
  if probed.is_playing then
    let cache_key := probed.title ++ "|" ++ probed.artist ++ "|" ++ pyShow probed.player
    get_current_song_info_cached norm w st probed cache_key
      (List.lookup cache_key st.song_cache)
  else
    (probed, st, none)

/-- A polling run: fold `get_current_song_info` over a list of probed
samples, collecting for each tick the identity that triggered a catalog
search, if any. -/
def run_retriever (norm : String → String) (w : ApiWorld) :
    RetrieverState → List SongInfo → RetrieverState × List (Option (String × String))
  | st, [] => (st, [])
  | st, p :: ps =>
    let r := get_current_song_info norm w st p
    let rest := run_retriever norm w r.2.1 ps
    (rest.1, r.2.2 :: rest.2)

/-! ### Now-playing probe (`get_now_playing`, song_info.py lines 283-406) -/

/-- The external world of one `get_now_playing` call: the `nowplaying-cli`
binary and the `pgrep` answers.  `toolPresent = false` makes the very first
`subprocess.run` raise `FileNotFoundError` (caught by the blanket handler).
Text parsing of the raw property list is abstracted into its parsed outcome
(`rawPlaybackRate1` is the `"...PlaybackRate = 1"` substring test, the two
options are the regex captures for duration and elapsed time). -/
structure ProbeWorld where
  toolPresent : Bool := true
  getRc : Int := 0
  getLines : List String := []
  rawRc : Int := 0
  rawHasOutput : Bool := false
  rawPlaybackRate1 : Bool := false
  rawDuration : Option Int := none
  rawElapsed : Option Int := none
  deezerRunning : Bool := false
  runningPlayers : List String := []

/-- Whether `pat` occurs as a contiguous substring (Python's `in`). -/
def listHasInfix (pat : List Char) : List Char → Bool
  | [] => pat.isEmpty
  | c :: rest => pat.isPrefixOf (c :: rest) || listHasInfix pat rest

/-- Python's `pat in hay` on strings. -/
def strContains (hay pat : String) : Bool := listHasInfix pat.data hay.data

/-- The fixed candidate list of `_identify_player` (song_info.py line 1172). -/
def playerList : List String := ["Spotify", "Music", "iTunes", "VLC", "YouTube", "Tidal"]

/-- `_identify_player` (song_info.py lines 1165-1188): the first candidate
whose process `pgrep` finds. -/
def identify_player (w : ProbeWorld) : Option String :=
  playerList.find? (fun p => w.runningPlayers.contains p)

/-- The empty not-playing sample `SongInfo(playing=False, player=None)`. -/
def notPlayingSample (norm : String → String) : SongInfo :=
  mkSongInfo norm { playing := false }

/-- `get_now_playing` (song_info.py lines 283-406).  The `Nat` counts the
`nowplaying-cli` process-spawn attempts this single call makes (the function
is stateless: the retriever keeps no tool-availability flag).  A missing tool
raises on the first spawn; the blanket `except` turns it, like a nonzero exit
or empty output, into the empty not-playing sample. -/
def get_now_playing (norm : String → String) (w : ProbeWorld) : SongInfo × Nat :=
  if !w.toolPresent then (notPlayingSample norm, 1)
  else if w.getRc ≠ 0 then (notPlayingSample norm, 1)
  else
    match w.getLines with
    | [] => (notPlayingSample norm, 1)
    | title :: restLines =>
      let rawValid := (w.rawRc == 0) && w.rawHasOutput
      let is_playing := rawValid && w.rawPlaybackRate1
      let duration := if rawValid then w.rawDuration.getD 0 else 0
      let position := if rawValid then w.rawElapsed.getD 0 else 0
      let artist := restLines.head?
      let album := restLines.get? 1
      if title = "" then (notPlayingSample norm, 2)
      else
        let player :=
          if w.deezerRunning then some "Deezer"
          else if (match artist with
                   | some ar => strContains ar "Music"
                   | none => false) then some "Apple Music"
          else identify_player w
        (mkSongInfo norm
          { title := some title, artist := artist, album := album,
            duration := duration, elapsed := position,
            playing := is_playing, player := player }, 2)

/-! ### Presence publisher (src/music_rpc/core/discord_presence.py) -/

/-- One call made to the underlying rich-presence protocol (pypresence). -/
inductive RpcCall where
  | connectRpc (client_id : String)
  | publish (details state large_image large_text : String)
      (start stop : Option Int)
  | clearPresence
  | closePresence
deriving DecidableEq, Repr

/-- The mutable state of a `DiscordPresenceManager`. -/
structure PresenceState where
  connected : Bool := false
  last_title : Option String := none
  current_client_id : Option String := none
  rpcSome : Bool := false
deriving DecidableEq, Repr

/-- Outcomes of the protocol calls during one manager method call. -/
structure RpcWorld where
  connectOk : Bool := true
  publishOk : Bool := true
  clearOk : Bool := true
  now : Int := 0

/-- Python truthiness of an `Optional[int]`. -/
def optIntTruthy : Option Int → Bool
  | some n => n ≠ 0
  | none => false

/-- Python's `s or d` on strings. -/
def pyStrOr (s d : String) : String := if s = "" then d else s

/-- `text[:128]` over characters. -/
def strTake (s : String) (n : Nat) : String := String.mk (s.data.take n)

/-- `DiscordPresenceManager.disconnect` (discord_presence.py lines 291-330),
non-exceptional close path; errors of the pre-close `clear` are swallowed, so
`clearOk` does not matter here.  Returns (result, state, protocol calls). -/
def disconnect (s : PresenceState) : Bool × PresenceState × List RpcCall :=
  if !s.connected then (true, s, [])
  else
    let tr := if s.rpcSome then [RpcCall.clearPresence, RpcCall.closePresence] else []
    (true,
     { connected := false, last_title := none, current_client_id := none,
       rpcSome := false }, tr)

/-- `DiscordPresenceManager.connect` (discord_presence.py lines 63-122).  An
empty or missing player name falls back to "Music"; a `None` client ID means
the player is disabled (disconnect if connected, report failure); an equal
client ID is a no-op success; otherwise disconnect, then attempt the protocol
connect, resetting the state on failure as the `except` branch does. -/
def connect (cfg : Config) (w : RpcWorld) (player_name : Option String)
    (s : PresenceState) : Bool × PresenceState × List RpcCall :=
  let pn := pyOrStr player_name "Music"
  match get_client_id cfg (some pn) with
  | none =>
    if s.connected then
      let d := disconnect s
      (false, d.2.1, d.2.2)
    else (false, s, [])
  | some cid =>
    if s.connected && (s.current_client_id == some cid) then (true, s, [])
    else
      let d := if s.connected then disconnect s else (true, s, [])
      let s1 := { d.2.1 with rpcSome := false, connected := false }
      if w.connectOk then
        (true,
         { s1 with connected := true, rpcSome := true,
                   current_client_id := some cid },
         d.2.2 ++ [RpcCall.connectRpc cid])
      else
        (false,
         { s1 with connected := false, current_client_id := none,
                   rpcSome := false },
         d.2.2 ++ [RpcCall.connectRpc cid])

/-- The tail of `DiscordPresenceManager.update` from the `is_playing` check
on (discord_presence.py lines 163-247): clear when not playing, skip the
duplicate title, otherwise build the payload — `last_title` is set before the
publish call, exactly as line 188 does — and attempt the protocol update; a
publish failure marks the manager disconnected and surfaces `False` with no
retry. -/
def updateBody (w : RpcWorld) (displayNorm : String → String)
    (s : PresenceState) (song : SongInfo) : Bool × PresenceState × List RpcCall :=
  if !song.is_playing then
    if s.rpcSome then
      if w.clearOk then (true, { s with last_title := none }, [RpcCall.clearPresence])
      else (false, s, [RpcCall.clearPresence])
    else (true, { s with last_title := none }, [])
  else if s.last_title == some song.title then (true, s, [])
  else
    let title := displayNorm (pyStrOr song.title "Unknown")
    let artist := displayNorm (pyStrOr song.artist "Unknown Artist")
    let player_name := pyOrStr song.player "Music Player"
    let s1 := { s with last_title := some song.title }
    let ts : Option (Int × Int) :=
      if optIntTruthy song.start_time && optIntTruthy song.end_time then
        let start_t := w.now - song.position
        let end_t := start_t + song.duration
        if start_t < end_t then some (start_t, end_t) else none
      else none
    let imgs :=
      match song.album_art_url with
      | some url =>
        if url ≠ "" ∧ USE_ALBUM_ART then (url, pyOrStr song.album player_name)
        else ("music_icon", player_name)
      | none => ("music_icon", player_name)
    let payload := RpcCall.publish (strTake title 128) (strTake artist 128)
      imgs.1 imgs.2 (ts.map Prod.fst) (ts.map Prod.snd)
    if s1.rpcSome then
      if w.publishOk then (true, s1, [payload])
      else (false, { s1 with connected := false }, [payload])
    else (false, s1, [])

/-- `DiscordPresenceManager.update` (discord_presence.py lines 124-247).
`displayNorm` abstracts `_ensure_unicode_display`.  The blocks in order:
reject `None`, switch client IDs if the player changed while connected,
reject disabled players, connect when disconnected, then `updateBody`. -/
def update (cfg : Config) (w : RpcWorld) (displayNorm : String → String)
    (s : PresenceState) (song? : Option SongInfo) : Bool × PresenceState × List RpcCall :=
  match song? with
  | none => (false, s, [])
  | some song =>
    let sw : Bool × PresenceState × List RpcCall :=
      if optStrTruthy song.player && s.connected then
        if get_client_id cfg song.player ≠ s.current_client_id then
          let d := disconnect s
          let c := connect cfg w song.player d.2.1
          (c.1, c.2.1, d.2.2 ++ c.2.2)
        else (true, s, [])
      else (true, s, [])
    if !sw.1 then (false, sw.2.1, sw.2.2)
    else
      let s1 := sw.2.1
      if optStrTruthy song.player && (get_client_id cfg song.player).isNone then
        (false, s1, sw.2.2)
      else
        let cn : Bool × PresenceState × List RpcCall :=
          if !s1.connected then connect cfg w song.player s1 else (true, s1, [])
        if !cn.1 then (false, cn.2.1, sw.2.2 ++ cn.2.2)
        else
          let body := updateBody w displayNorm cn.2.1 song
          (body.1, body.2.1, sw.2.2 ++ cn.2.2 ++ body.2.2)

/-! ### Concrete scenario data for counterexamples and witnesses -/

/-- A fresh retriever state (empty cache, no last key). -/
def emptyRetriever : RetrieverState := {}

/-- A catalog answer whose display fields differ from the probed ones. -/
def apiSongC5 : ApiSong :=
  { title := some "API Title", artist_name := some "API Artist",
    cover_medium := some "https://x/cover.jpg", link := some "https://x/song" }

/-- A world whose search always returns `apiSongC5` with reachable art. -/
def worldC5 : ApiWorld :=
  { search := fun _ => some apiSongC5, headOk := fun _ => true,
    now_playing := notPlayingSample id }

/-- An art-bearing answer for the stage-8 catch-all query. -/
def apiSongC2 : ApiSong :=
  { title := some "Cau lidi", cover_medium := some "https://x/c8.jpg",
    link := some "https://x/l8" }

/-- A world that answers only the stage-8 catch-all query
(diacritic-stripped title, space, diacritic-stripped artist) with an
art-bearing track, and every other query with an empty result. -/
def worldC2 : ApiWorld :=
  { search := fun q => if q = "Cau lidi Rek" then some apiSongC2 else none,
    headOk := fun _ => true,
    now_playing := notPlayingSample id }

/-- A probe world in which `nowplaying-cli` is not on the PATH. -/
def missingToolWorld : ProbeWorld := { toolPresent := false }

/-- Two consecutive probe calls: the retriever object keeps no
tool-availability state, so the second call is the same pure call; this sums
their `nowplaying-cli` spawn attempts. -/
def probeTwiceSpawns (norm : String → String) (w : ProbeWorld) : Nat :=
  (get_now_playing norm w).2 + (get_now_playing norm w).2

/-- A playing track carrying external album art. -/
def songC6 : SongInfo :=
  mkSongInfo id
    { title := some "Test Song", artist := some "Test Artist", playing := true,
      player := some "Deezer", album_art_url := some "https://x/cover.jpg" }

/-- A manager state connected under the Deezer client ID. -/
def stateC6 : PresenceState :=
  { connected := true, rpcSome := true,
    current_client_id := some "1352674859670310992" }

/-- A protocol world whose publish call fails. -/
def failingPublish : RpcWorld := { publishOk := false }

/-- A probe sample with a title but `playing=False` (a paused track). -/
def pausedSong : SongInfo :=
  mkSongInfo id { title := some "Song X", artist := some "A" }

/-- A retriever state remembering a previous identity key. -/
def stateC7 : RetrieverState := { song_cache := [], last_song_key := some "K" }

/-- Recognizer for protocol publish calls. -/
def isPublish : RpcCall → Bool
  | .publish _ _ _ _ _ _ => true
  | _ => false

/-- A manager state connected under the default client ID. -/
def connectedDefault : PresenceState :=
  { connected := true, rpcSome := true,
    current_client_id := some DISCORD_CLIENT_ID }

/-- A successful association-list lookup returns a stored value. -/
theorem lookup_mem {β : Type} {k : String} {v : β} :
    ∀ {l : List (String × β)}, List.lookup k l = some v → ∃ kv, kv ∈ l ∧ kv.2 = v := by
  intro l
  induction l with
  | nil => intro h; simp [List.lookup] at h
  | cons kv t ih =>
    obtain ⟨a, b⟩ := kv
    intro h
    rw [List.lookup] at h
    cases hk : (k == a) with
    | true =>
      simp only [hk] at h
      exact ⟨(a, b), List.mem_cons_self _ _, by cases h; rfl⟩
    | false =>
      simp only [hk] at h
      obtain ⟨kv2, hmem, hv⟩ := ih h
      exact ⟨kv2, List.mem_cons_of_mem _ hmem, hv⟩

/-- In a configuration whose alias targets and player keys are nonempty (as
every configuration the program builds is), a resolved name is nonempty. -/
theorem resolveName_ne_empty (cfg : Config)
    (hA : ∀ kv ∈ cfg.player_aliases, kv.2 ≠ "")
    (hC : ∀ kv ∈ cfg.discord_client_ids, kv.1 ≠ "")
    (q n : String) (h : resolveName cfg q = some n) : n ≠ "" := by
  unfold resolveName at h
  split at h
  · rename_i m heq
    cases h
    obtain ⟨kv, hmem, hv⟩ := lookup_mem heq
    exact hv ▸ hA kv hmem
  · simp only [Option.map_eq_some'] at h
    obtain ⟨kv, hfind, hfst⟩ := h
    have hmem := List.mem_of_find?_eq_some hfind
    exact hfst ▸ hC kv hmem

/-! ### Theorems: C4, C8, C10 -/

/-- C4 counterexample: `_ensure_unicode` is not idempotent.  Decoding the
ASCII text `\u005Cu0041` yields `\u0041` (the `\u005C` escape decodes to a
backslash, manufacturing a fresh escape), and a second application decodes
that to `A`.  All texts involved are ASCII, where NFC is the identity. -/
theorem ensure_unicode_not_idempotent :
    ensure_unicode nfcAscii (ensure_unicode nfcAscii (some escapeTrap)) ≠
      ensure_unicode nfcAscii (some escapeTrap) := by decide

/-- C4 amended: `_ensure_unicode` maps `None` to `None` and is idempotent on
every text whose normalized form contains no residual `\u` or `\U` escape
prefix, for any idempotent NFC (idempotence of NFC is guaranteed by the
Unicode standard); full idempotence fails (see the counterexample). -/
theorem ensure_unicode_idempotent_no_escapes (nfc : List Nat → List Nat)
    (hnfc : ∀ l, nfc (nfc l) = nfc l) (t : Option (List Nat))
    (hq : ∀ l, ensure_unicode nfc t = some l →
      hasSub2 92 117 l = false ∧ hasSub2 92 85 l = false) :
    ensure_unicode nfc (ensure_unicode nfc t) = ensure_unicode nfc t := by
  have pyDecode_skip : ∀ l, hasSub2 92 117 l = false → hasSub2 92 85 l = false →
      pyDecode l = l := by
    intro l hl1 hl2
    simp [pyDecode, hl1, hl2]
  match t with
  | none => rfl
  | some t0 =>
    obtain ⟨h1, h2⟩ := hq (nfc (pyDecode t0)) rfl
    show some (nfc (pyDecode (nfc (pyDecode t0)))) = some (nfc (pyDecode t0))
    rw [pyDecode_skip _ h1 h2, hnfc]

/-- C4 amended, witness at a concrete escape-free ASCII input. -/
theorem ensure_unicode_idempotent_witness :
    ensure_unicode nfcAscii (ensure_unicode nfcAscii (some [65, 66])) =
      ensure_unicode nfcAscii (some [65, 66]) :=
  ensure_unicode_idempotent_no_escapes nfcAscii (fun _ => rfl) (some [65, 66])
    (by decide)

/-- `set_update_interval` on an in-range numeric input. -/
theorem set_update_interval_in_range (cfg : Config) (i : PyVal) (v : Int)
    (h : pyInt i = some v) (hv : 5 ≤ v ∧ v ≤ 60) :
    set_update_interval cfg i =
      (true, "Update interval set to " ++ toString v ++ " seconds",
       { cfg with update_interval := v }) := by
  unfold set_update_interval
  rw [h]
  show (if 5 ≤ v ∧ v ≤ 60 then _ else _) = _
  rw [if_pos hv]

/-- `set_update_interval` on an out-of-range numeric input. -/
theorem set_update_interval_out_of_range (cfg : Config) (i : PyVal) (v : Int)
    (h : pyInt i = some v) (hv : ¬(5 ≤ v ∧ v ≤ 60)) :
    set_update_interval cfg i =
      (false, "Invalid interval. Using default " ++ toString cfg.update_interval ++ " seconds",
       cfg) := by
  unfold set_update_interval
  rw [h]
  show (if 5 ≤ v ∧ v ≤ 60 then _ else _) = _
  rw [if_neg hv]

/-- `set_update_interval` on a non-numeric input. -/
theorem set_update_interval_invalid (cfg : Config) (i : PyVal)
    (h : pyInt i = none) :
    set_update_interval cfg i =
      (false, "Invalid input. Using default " ++ toString cfg.update_interval ++ " seconds",
       cfg) := by
  unfold set_update_interval
  rw [h]

/-- C8: `set_update_interval` succeeds and stores `int(i)` exactly when
`5 ≤ int(i) ≤ 60`; on every other input (out of bounds or non-numeric) it
returns `false` with the state unchanged; in particular `3` is rejected with
the interval unchanged and `30` is accepted and stored.  Totality of the Lean
function models "never throws" on the annotated `Union[str, int]` domain. -/
theorem set_update_interval_spec (cfg : Config) (i : PyVal) :
    ((set_update_interval cfg i).1 = true ↔
      ∃ v, pyInt i = some v ∧ 5 ≤ v ∧ v ≤ 60) ∧
    (∀ v, pyInt i = some v → 5 ≤ v → v ≤ 60 →
      (set_update_interval cfg i).2.2.update_interval = v) ∧
    ((set_update_interval cfg i).1 = false → (set_update_interval cfg i).2.2 = cfg) ∧
    (set_update_interval cfg (.int 3)).1 = false ∧
    (set_update_interval cfg (.int 3)).2.2 = cfg ∧
    (set_update_interval cfg (.int 30)).1 = true ∧
    (set_update_interval cfg (.int 30)).2.2.update_interval = 30 := by
  have h3 := set_update_interval_out_of_range cfg (.int 3) 3 rfl (by omega)
  have h30 := set_update_interval_in_range cfg (.int 30) 30 rfl (by omega)
  refine ⟨?_, ?_, ?_, by rw [h3], by rw [h3], by rw [h30], by rw [h30]⟩
  · constructor
    · intro ht
      rcases h : pyInt i with _ | v
      · rw [set_update_interval_invalid cfg i h] at ht
        exact absurd ht (by simp)
      · by_cases hv : 5 ≤ v ∧ v ≤ 60
        · exact ⟨v, rfl, hv.1, hv.2⟩
        · rw [set_update_interval_out_of_range cfg i v h hv] at ht
          exact absurd ht (by simp)
    · rintro ⟨v, hv, h5, h60⟩
      rw [set_update_interval_in_range cfg i v hv ⟨h5, h60⟩]
  · intro v hv h5 h60
    rw [set_update_interval_in_range cfg i v hv ⟨h5, h60⟩]
  · intro hf
    rcases h : pyInt i with - | v
    · rw [set_update_interval_invalid cfg i h]
    · by_cases hv : 5 ≤ v ∧ v ≤ 60
      · rw [set_update_interval_in_range cfg i v h hv] at hf
        exact absurd hf (by simp)
      · rw [set_update_interval_out_of_range cfg i v h hv]

/-- C8 witness: the two scenario calls on the default configuration. -/
theorem set_update_interval_witness :
    (set_update_interval defaultConfig (.int 30)).2.2.update_interval = 30 ∧
    (set_update_interval defaultConfig (.int 3)).1 = false ∧
    (set_update_interval defaultConfig (.int 3)).2.2 = defaultConfig :=
  ⟨(set_update_interval_spec defaultConfig (.int 30)).2.1 30 (by decide) (by decide)
      (by decide),
   (set_update_interval_spec defaultConfig (.int 3)).2.2.2.1,
   (set_update_interval_spec defaultConfig (.int 3)).2.2.2.2.1⟩

/-- C10: `get_client_id` is total; it returns `None` exactly for player names
that resolve (case-insensitively, via the alias table or a direct match
against configured players) to a name in the disabled list; `None` input and
names resolving to nothing get the built-in default ID, so an unknown player
is never treated as disabled.  The nonemptiness hypotheses hold for every
configuration the program can build: defaults, `load_config` and the setters
only ever insert nonempty alias targets and nonempty player keys. -/
theorem get_client_id_spec (cfg : Config)
    (hA : ∀ kv ∈ cfg.player_aliases, kv.2 ≠ "")
    (hC : ∀ kv ∈ cfg.discord_client_ids, kv.1 ≠ "") :
    (∀ p, get_client_id cfg p = none ↔
      ∃ q n, p = some q ∧ q ≠ "" ∧ resolveName cfg q = some n ∧
        n ∈ cfg.disabled_players) ∧
    get_client_id cfg none = some DISCORD_CLIENT_ID ∧
    (∀ q, resolveName cfg q = none →
      get_client_id cfg (some q) = some DISCORD_CLIENT_ID) := by
  refine ⟨?_, rfl, ?_⟩
  · intro p
    constructor
    · intro h
      match p with
      | none => simp [get_client_id] at h
      | some q =>
        simp only [get_client_id] at h
        by_cases hq : q = ""
        · rw [if_pos hq] at h
          exact absurd h (by simp)
        · rw [if_neg hq] at h
          rcases hr : resolveName cfg q with - | n
          · rw [hr] at h
            simp only [get_client_id_resolved] at h
            exact absurd h (by simp)
          · rw [hr] at h
            simp only [get_client_id_resolved] at h
            by_cases hcond : n ≠ "" ∧ n ∈ cfg.disabled_players
            · exact ⟨q, n, rfl, hq, hr, hcond.2⟩
            · exfalso
              rw [if_neg hcond] at h
              by_cases h2 : n ≠ "" <;> simp [h2] at h
    · rintro ⟨q, n, rfl, hqne, hres, hdis⟩
      have hne : n ≠ "" := resolveName_ne_empty cfg hA hC q n hres
      simp only [get_client_id]
      rw [if_neg hqne, hres]
      simp only [get_client_id_resolved]
      rw [if_pos ⟨hne, hdis⟩]
  · intro q hr
    simp only [get_client_id]
    by_cases hq : q = ""
    · rw [if_pos hq]
    · rw [if_neg hq, hr]
      rfl

/-- C10 witness: on the default configuration, "Apple Music" (via the alias
table) resolves to the disabled player "Music" and gets `None`; an unknown
player gets the default client ID. -/
theorem get_client_id_witness :
    (get_client_id defaultConfig (some "apple music") = none ↔
      ∃ q n, (some "apple music" : Option String) = some q ∧ q ≠ "" ∧
        resolveName defaultConfig q = some n ∧
        n ∈ defaultConfig.disabled_players) ∧
    get_client_id defaultConfig none = some DISCORD_CLIENT_ID ∧
    get_client_id defaultConfig (some "UnknownPlayer") = some DISCORD_CLIENT_ID := by
  obtain ⟨h1, h2, h3⟩ := get_client_id_spec defaultConfig (by decide) (by decide)
  exact ⟨h1 (some "apple music"), h2, h3 "UnknownPlayer" (by decide)⟩

/-! ### Theorems: C9 (is_playing), C5 (display fields), C2 (cascade) -/

/-- C9: `is_playing` reports `True` only when the `playing` flag holds and
the title differs from the sentinel; the constructor maps a `None` or empty
title to "Not playing", so a `SongInfo` built with `title=None` is never
reported playing, even with `playing=True`.  (`norm "" = ""` holds for the
real `_ensure_unicode`: the empty string has no escapes and is NFC-fixed.) -/
theorem song_is_playing_spec (norm : String → String) (hn : norm "" = "") :
    (∀ s : SongInfo, s.is_playing = true → s.playing = true ∧ s.title ≠ "Not playing") ∧
    (∀ a : SongArgs, a.title = none ∨ a.title = some "" →
      (mkSongInfo norm a).title = "Not playing") ∧
    (∀ a : SongArgs, a.title = none → (mkSongInfo norm a).is_playing = false) := by
  refine ⟨?_, ?_, ?_⟩
  · intro s h
    simp only [SongInfo.is_playing, Bool.and_eq_true, bne_iff_ne, ne_eq] at h
    exact ⟨h.2, h.1⟩
  · rintro a (ha | ha) <;> simp [mkSongInfo, ha, pyOrStr, hn]
  · intro a ha
    simp [SongInfo.is_playing, mkSongInfo, ha, pyOrStr]

/-- C9 witness: a concrete `SongInfo(title=None, playing=True)`. -/
theorem song_is_playing_witness :
    (mkSongInfo id { title := none, artist := some "X", playing := true }).is_playing
      = false :=
  (song_is_playing_spec id rfl).2.2 { title := none, artist := some "X", playing := true } rfl

/-- C5 counterexample: the primary search stage does not preserve the
original title/artist for display.  With a catalog answer carrying its own
title and artist, the enriched track's display fields are the catalog's, not
the probed originals. -/
theorem search_display_not_original_cex :
    (get_song_via_api id worldC5 emptyRetriever "Orig Title" "Orig Artist"
        (some "Deezer")).1.title = "API Title" ∧
    (get_song_via_api id worldC5 emptyRetriever "Orig Title" "Orig Artist"
        (some "Deezer")).1.artist = "API Artist" ∧
    ("API Title" : String) ≠ "Orig Title" := by decide

/-- C5 amended: only the alternative-search helper preserves the original
title and artist; the primary stages 1-3 (`_search_deezer`) take both display
fields from the catalog's first answer, falling back to the query text (which
at stage 3 is diacritic-stripped) only when the answer omits them. -/
theorem display_fields_spec (norm : String → String) (w : ApiWorld) :
    (∀ a t p song d, w.search (deezer_query a t) = some song →
      search_deezer norm w a t p = some d →
      d.title = norm (song.title.getD t) ∧ d.artist = norm (song.artist_name.getD a)) ∧
    (∀ q t a p d, try_alternative_search w q t a p = some d →
      d.title = t ∧ d.artist = a) := by
  constructor
  · intro a t p song d hsearch hd
    unfold search_deezer at hd
    rw [hsearch] at hd
    simp only [search_deezer_answer] at hd
    rcases hlink : song.link with _ | link
    · rw [hlink] at hd
      simp [search_deezer_hit] at hd
    · rw [hlink] at hd
      simp only [search_deezer_hit, Option.some_inj] at hd
      subst hd
      exact ⟨rfl, rfl⟩
  · intro q t a p d hd
    unfold try_alternative_search at hd
    rcases hs : w.search q with _ | song
    · rw [hs] at hd
      simp [try_alternative_answer] at hd
    · rw [hs] at hd
      simp only [try_alternative_answer] at hd
      rcases hv : verifyArt w song.cover_medium with _ | url
      · rw [hv] at hd
        simp [try_alternative_art] at hd
      · rw [hv] at hd
        simp only [try_alternative_art, Option.some_inj] at hd
        subst hd
        exact ⟨rfl, rfl⟩

/-- C5 witness for the amended claim, on the concrete stage-1 scenario. -/
theorem display_fields_witness :
    (search_deezer id worldC5 "Orig Artist" "Orig Title" none).map Details.title =
      some "API Title" := by
  rcases hs : search_deezer id worldC5 "Orig Artist" "Orig Title" none with _ | d
  · exact absurd hs (by decide)
  · have h := ((display_fields_spec id worldC5).1 "Orig Artist" "Orig Title" none
      apiSongC5 d rfl hs).1
    rw [Option.map_some', h]
    rfl

/-- C2 counterexample: with a catalog that answers only the stage-8
catch-all query ("Cau lidi Rek", the diacritic-stripped title and artist)
with an art-bearing track, the search still ends with the default sentinel
art; the cascade issues only the three primary queries and never the stage-8
one, because `_search_deezer_alternative` (stages 4-8) has no caller.  The
last conjunct shows the stage-8 helper would have succeeded had it been
reached. -/
theorem cascade_dead_code_cex :
    (get_song_via_api id worldC2 emptyRetriever "Čau lidi" "Řek" none).1.album_cover
      = some "music_logo" ∧
    (search_cascade id worldC2 "Čau lidi" "Řek" none).2 =
      ["Řek Čau lidi", "track:\"Čau lidi\"", "artist:\"Rek\" track:\"Cau lidi\""] ∧
    (try_alternative_search worldC2 "Cau lidi Rek" "Čau lidi" "Řek" none).isSome
      = true := by decide

/-- C2 amended: on a cache miss the search runs only the three primary
stages, in order and each gated on every earlier stage yielding no
art-bearing result - structured artist+title (plain concatenation for a
diacritic artist), title-only, diacritic-stripped (the last only when the
text has Czech diacritics); the fallback stages 4-8 live in the never-called
`_search_deezer_alternative`, so an input for which only the stage-8
catch-all would yield art ends with the default sentinel art instead. -/
theorem search_cascade_stages (norm : String → String) (w : ApiWorld)
    (t a : String) (p : Option String) :
    (art_bearing (search_deezer norm w a t p) = true →
      search_cascade norm w t a p =
        (search_deezer norm w a t p, [deezer_query a t])) ∧
    (art_bearing (search_deezer norm w a t p) = false →
      art_bearing (search_deezer norm w "" t p) = true →
      search_cascade norm w t a p =
        (search_deezer norm w "" t p, [deezer_query a t, deezer_query "" t])) ∧
    (art_bearing (search_deezer norm w a t p) = false →
      art_bearing (search_deezer norm w "" t p) = false →
      (contains_czech_chars t || contains_czech_chars a) = false →
      search_cascade norm w t a p =
        (search_deezer norm w a t p, [deezer_query a t, deezer_query "" t])) ∧
    (art_bearing (search_deezer norm w a t p) = false →
      art_bearing (search_deezer norm w "" t p) = false →
      (contains_czech_chars t || contains_czech_chars a) = true →
      (search_cascade norm w t a p).2 =
        [deezer_query a t, deezer_query "" t,
         deezer_query (remove_diacritics a) (remove_diacritics t)]) ∧
    (∀ st t0 a0, List.lookup (t0 ++ "::" ++ a0) st.song_cache = none →
      art_bearing (search_cascade norm w (norm t0) (norm a0) p).1 = false →
      (get_song_via_api norm w st t0 a0 p).1.album_cover = some "music_logo") := by
  refine ⟨?_, ?_, ?_, ?_, ?_⟩
  · intro h1
    simp [search_cascade, h1]
  · intro h1 h2
    simp [search_cascade, h1, h2]
  · intro h1 h2 hcz
    simp [search_cascade, h1, h2, hcz]
  · intro h1 h2 hcz
    simp [search_cascade, h1, h2, hcz]
  · intro st t0 a0 hlook hart
    show (get_song_via_api_cached norm w st t0 a0 p (t0 ++ "::" ++ a0)
      (List.lookup (t0 ++ "::" ++ a0) st.song_cache)).1.album_cover = some "music_logo"
    rw [hlook]
    simp only [get_song_via_api_cached]
    rcases hc : (search_cascade norm w (norm t0) (norm a0) p).1 with _ | d
    · simp [cascade_details, hc, mkSongInfo]
    · rw [hc] at hart
      simp only [art_bearing, bne_eq_false_iff_eq] at hart
      simp [cascade_details, hc, mkSongInfo, hart]

/-- C2 amended witness: in the concrete stage-8-only world the gating
conditions hold and the cascade stops after the three primary queries with
the default sentinel art. -/
theorem search_cascade_stages_witness :
    (search_cascade id worldC2 "Čau lidi" "Řek" none).2 =
      [deezer_query "Řek" "Čau lidi", deezer_query "" "Čau lidi",
       deezer_query (remove_diacritics "Řek") (remove_diacritics "Čau lidi")] ∧
    (get_song_via_api id worldC2 emptyRetriever "Čau lidi" "Řek" none).1.album_cover
      = some "music_logo" :=
  ⟨(search_cascade_stages id worldC2 "Čau lidi" "Řek" none).2.2.2.1
      (by decide) (by decide) (by decide),
   (search_cascade_stages id worldC2 "Čau lidi" "Řek" none).2.2.2.2
      emptyRetriever "Čau lidi" "Řek" (by decide) (by decide)⟩

/-! ### Theorems: C3 (probe), C6 (publish retry), C7 (not-playing path) -/

/-- C3 counterexample: a missing query tool is not remembered.  Each probe
call spawn-attempts the tool exactly once, so two consecutive calls make two
spawn attempts, not the single one the claim's short-circuit would allow. -/
theorem probe_respawns_cex :
    probeTwiceSpawns id missingToolWorld = 2 ∧
    ¬ probeTwiceSpawns id missingToolWorld ≤ 1 := by decide

/-- C3 amended: a missing tool is handled like any other probe failure, on
every call: the `FileNotFoundError` is caught by the blanket handler and the
call returns the empty not-playing sample after exactly one spawn attempt;
the retriever keeps no availability state, so nothing short-circuits later
calls (`get_now_playing` is a pure function of the outside world). -/
theorem probe_missing_tool_spec (norm : String → String) (w : ProbeWorld)
    (h : w.toolPresent = false) :
    get_now_playing norm w = (notPlayingSample norm, 1) := by
  simp [get_now_playing, h]

/-- C3 amended witness. -/
theorem probe_missing_tool_witness :
    get_now_playing id missingToolWorld = (notPlayingSample id, 1) :=
  probe_missing_tool_spec id missingToolWorld rfl

/-- C6 counterexample: on a failing publish for a playing track with external
art, `update` returns `False` after a single protocol update attempt — there
is no immediate retry with default art substituted (that behavior exists only
in the legacy `deezer_rpc` manager, which nothing runs). -/
theorem publish_no_retry_cex :
    (update defaultConfig failingPublish id stateC6 (some songC6)).1 = false ∧
    (update defaultConfig failingPublish id stateC6 (some songC6)).2.2 =
      [RpcCall.publish "Test Song" "Test Artist" "https://x/cover.jpg" "Deezer"
        none none] ∧
    (update defaultConfig failingPublish id stateC6 (some songC6)).2.1.connected
      = false := by decide

/-- C6 amended: when the protocol publish call fails for a playing track,
`update` makes exactly one publish attempt, marks the manager disconnected,
and surfaces `False` immediately, with no retry of any kind. -/
theorem publish_failure_no_retry (cfg : Config) (w : RpcWorld)
    (dn : String → String) (s : PresenceState) (song : SongInfo)
    (hw : w.publishOk = false)
    (hconn : s.connected = true) (hrpc : s.rpcSome = true)
    (hcid : get_client_id cfg song.player = s.current_client_id)
    (hcidSome : (get_client_id cfg song.player).isSome = true)
    (hplay : song.is_playing = true)
    (hnew : (s.last_title == some song.title) = false) :
    (update cfg w dn s (some song)).1 = false ∧
    (update cfg w dn s (some song)).2.1.connected = false ∧
    ((update cfg w dn s (some song)).2.2.countP isPublish) = 1 := by
  have hnone : s.current_client_id.isNone = false := by
    rw [← hcid]
    rcases hx : get_client_id cfg song.player with _ | c
    · rw [hx] at hcidSome
      simp at hcidSome
    · rfl
  have hupd : update cfg w dn s (some song) = updateBody w dn s song := by
    simp only [update]
    rw [hcid]
    simp [hconn, hnone]
  have hb : (updateBody w dn s song).1 = false ∧
      (updateBody w dn s song).2.1.connected = false ∧
      (updateBody w dn s song).2.2.countP isPublish = 1 := by
    simp [updateBody, hplay, hnew, hrpc, hw, isPublish]
  rw [hupd]
  exact hb

/-- C6 amended witness: the concrete failing-publish scenario. -/
theorem publish_failure_no_retry_witness :
    (update defaultConfig failingPublish id stateC6 (some songC6)).1 = false ∧
    (update defaultConfig failingPublish id stateC6 (some songC6)).2.1.connected
      = false ∧
    ((update defaultConfig failingPublish id stateC6 (some songC6)).2.2.countP
      isPublish) = 1 :=
  publish_failure_no_retry defaultConfig failingPublish id stateC6 songC6
    rfl rfl rfl (by decide) (by decide) (by decide) (by decide)

/-- C7 counterexample: a probe sample that is not playing but carries a title
("paused") is returned as-is — not the "Not playing" sentinel — and the
last-identity marker `last_song_key` is left untouched, not cleared. -/
theorem not_playing_no_clear_cex :
    (get_current_song_info id worldC5 stateC7 pausedSong).1.title = "Song X" ∧
    ("Song X" : String) ≠ "Not playing" ∧
    (get_current_song_info id worldC5 stateC7 pausedSong).2.1.last_song_key
      = some "K" := by decide

/-- C7 amended: on a not-playing probe report, `get_current_song_info`
returns the probe's sample unchanged (so the sentinel appears exactly when
the probe produced the empty sample, whose title is "Not playing") and leaves
the whole state — including `last_song_key` — untouched; and the Publisher's
`update()` on a connected manager with a not-playing track calls `clear()`
and never the fielded update, resetting its own `last_title` marker. -/
theorem not_playing_behavior (norm : String → String) (w : ApiWorld)
    (st : RetrieverState) (probed : SongInfo) (cfg : Config) (rw0 : RpcWorld)
    (dn : String → String) (s : PresenceState) (song : SongInfo)
    (hp : probed.is_playing = false)
    (hplayer : song.player = none) (hconn : s.connected = true)
    (hrpc : s.rpcSome = true) (hclear : rw0.clearOk = true)
    (hsp : song.is_playing = false) :
    get_current_song_info norm w st probed = (probed, st, none) ∧
    (notPlayingSample norm).title = "Not playing" ∧
    update cfg rw0 dn s (some song) =
      (true, { s with last_title := none }, [RpcCall.clearPresence]) := by
  refine ⟨?_, by simp [notPlayingSample, mkSongInfo, pyOrStr], ?_⟩
  · simp [get_current_song_info, hp]
  · have hupd : update cfg rw0 dn s (some song) = updateBody rw0 dn s song := by
      simp only [update]
      simp [hplayer, hconn, optStrTruthy]
    rw [hupd]
    simp [updateBody, hsp, hrpc, hclear]

/-- C7 amended witness: the empty probe sample and a connected manager. -/
theorem not_playing_behavior_witness :
    get_current_song_info id worldC5 stateC7 (notPlayingSample id) =
      (notPlayingSample id, stateC7, none) ∧
    (notPlayingSample id).title = "Not playing" ∧
    update defaultConfig {} id connectedDefault (some (notPlayingSample id)) =
      (true, { connectedDefault with last_title := none },
       [RpcCall.clearPresence]) :=
  not_playing_behavior id worldC5 stateC7 (notPlayingSample id) defaultConfig {}
    id connectedDefault (notPlayingSample id)
    (by decide) rfl rfl rfl rfl (by decide)

/-! ### Theorems: C1 (at most one catalog search per identity) -/

/-- Lookup at the head key of an association list. -/
theorem lookup_cons_self {β : Type} (k : String) (v : β) (l : List (String × β)) :
    List.lookup k ((k, v) :: l) = some v := by
  rw [List.lookup, beq_self_eq_true]

/-- Lookup skipping a head entry with a different key. -/
theorem lookup_cons_ne {β : Type} (k k0 : String) (v : β) (l : List (String × β))
    (h : ¬ k = k0) : List.lookup k ((k0, v) :: l) = List.lookup k l := by
  rw [List.lookup, beq_eq_false_iff_ne.mpr h]

/-- Lookup after a Python dict assignment. -/
theorem lookup_dictSet : ∀ (l : List (String × SongInfo)) (k k2 : String) (v : SongInfo),
    List.lookup k2 (dictSet l k v) = if k2 = k then some v else List.lookup k2 l := by
  intro l
  induction l with
  | nil =>
    intro k k2 v
    by_cases h : k2 = k
    · subst h
      rw [dictSet, lookup_cons_self, if_pos rfl]
    · rw [dictSet, lookup_cons_ne _ _ _ _ h, if_neg h]
  | cons kv rest ih =>
    intro k k2 v
    obtain ⟨k0, v0⟩ := kv
    rw [dictSet]
    by_cases hk : k0 = k
    · rw [if_pos hk]
      subst hk
      by_cases h2 : k2 = k0
      · subst h2
        rw [lookup_cons_self, if_pos rfl]
      · rw [lookup_cons_ne _ _ _ _ h2, if_neg h2, lookup_cons_ne _ _ _ _ h2]
    · rw [if_neg hk]
      by_cases h2 : k2 = k0
      · subst h2
        rw [lookup_cons_self, if_neg hk, lookup_cons_self]
      · rw [lookup_cons_ne _ _ _ _ h2, ih, lookup_cons_ne _ _ _ _ h2]

/-- The bookkeeping facts of `get_song_via_api_cached` for an arbitrary
lookup answer `o` and key: the network cascade runs exactly when `o` is a
miss; afterwards the key is bound; and the cache only grows. -/
theorem get_song_via_api_cached_spec (norm : String → String) (w : ApiWorld)
    (st : RetrieverState) (t a : String) (p : Option String) (k0 : String)
    (o : Option SongInfo) :
    ((get_song_via_api_cached norm w st t a p k0 o).2.2 = true ↔ o = none) ∧
    (List.lookup k0
      (get_song_via_api_cached norm w st t a p k0 o).2.1.song_cache).isSome = true ∧
    (∀ k, (List.lookup k st.song_cache).isSome = true →
      (List.lookup k
        (get_song_via_api_cached norm w st t a p k0 o).2.1.song_cache).isSome = true) := by
  rcases o with _ | cached <;>
    simp only [get_song_via_api_cached] <;>
    refine ⟨by simp, by simp [lookup_dictSet], ?_⟩ <;>
    intro k hk <;>
    rw [lookup_dictSet] <;>
    by_cases h2 : k = k0
  · simp [h2]
  · rw [if_neg h2]
    exact hk
  · simp [h2]
  · rw [if_neg h2]
    exact hk

/-- The bookkeeping facts of one `get_song_via_api` call: the network-touching
cascade runs exactly on an inner-cache miss; afterwards the inner key is
cached; and the cache only grows. -/
theorem get_song_via_api_spec (norm : String → String) (w : ApiWorld)
    (st : RetrieverState) (t a : String) (p : Option String) :
    ((get_song_via_api norm w st t a p).2.2 = true ↔
      List.lookup (t ++ "::" ++ a) st.song_cache = none) ∧
    (List.lookup (t ++ "::" ++ a)
      (get_song_via_api norm w st t a p).2.1.song_cache).isSome = true ∧
    (∀ k, (List.lookup k st.song_cache).isSome = true →
      (List.lookup k (get_song_via_api norm w st t a p).2.1.song_cache).isSome = true) :=
  get_song_via_api_cached_spec norm w st t a p (t ++ "::" ++ a)
    (List.lookup (t ++ "::" ++ a) st.song_cache)

/-- The bookkeeping facts of one aggregator tick: a catalog search for
`(t, a)` happens only when `t::a` is missing from the cache, `t::a` is cached
afterwards, and the cache only grows. -/
theorem get_current_song_info_net (norm : String → String) (w : ApiWorld)
    (st : RetrieverState) (p : SongInfo) (t a : String) :
    ((get_current_song_info norm w st p).2.2 = some (t, a) →
      List.lookup (t ++ "::" ++ a) st.song_cache = none) ∧
    ((get_current_song_info norm w st p).2.2 = some (t, a) →
      (List.lookup (t ++ "::" ++ a)
        (get_current_song_info norm w st p).2.1.song_cache).isSome = true) ∧
    (∀ k, (List.lookup k st.song_cache).isSome = true →
      (List.lookup k (get_current_song_info norm w st p).2.1.song_cache).isSome = true) := by
  by_cases hp : p.is_playing = true
  · have hsel : get_current_song_info norm w st p =
        get_current_song_info_cached norm w st p
          (p.title ++ "|" ++ p.artist ++ "|" ++ pyShow p.player)
          (List.lookup (p.title ++ "|" ++ p.artist ++ "|" ++ pyShow p.player)
            st.song_cache) := by
      simp [get_current_song_info, hp]
    rw [hsel]
    rcases houter : List.lookup (p.title ++ "|" ++ p.artist ++ "|" ++ pyShow p.player)
        st.song_cache with _ | cached
    · obtain ⟨hiff, hsome, hmono⟩ :=
        get_song_via_api_spec norm w st p.title p.artist p.player
      simp only [get_current_song_info_cached]
      refine ⟨?_, ?_, ?_⟩
      · intro hev
        by_cases hr : (get_song_via_api norm w st p.title p.artist p.player).2.2 = true
        · rw [if_pos hr] at hev
          obtain ⟨rfl, rfl⟩ : p.title = t ∧ p.artist = a := by
            simpa using hev
          exact hiff.mp hr
        · rw [if_neg hr] at hev
          exact absurd hev (by simp)
      · intro hev
        by_cases hr : (get_song_via_api norm w st p.title p.artist p.player).2.2 = true
        · rw [if_pos hr] at hev
          obtain ⟨rfl, rfl⟩ : p.title = t ∧ p.artist = a := by
            simpa using hev
          rw [lookup_dictSet]
          by_cases h2 : p.title ++ "::" ++ p.artist =
              p.title ++ "|" ++ p.artist ++ "|" ++ pyShow p.player
          · simp [h2]
          · rw [if_neg h2]
            exact hsome
        · rw [if_neg hr] at hev
          exact absurd hev (by simp)
      · intro k hk
        rw [lookup_dictSet]
        by_cases h2 : k = p.title ++ "|" ++ p.artist ++ "|" ++ pyShow p.player
        · simp [h2]
        · rw [if_neg h2]
          exact hmono k hk
    · simp only [get_current_song_info_cached]
      refine ⟨by simp, by simp, ?_⟩
      intro k hk
      rw [lookup_dictSet]
      by_cases h2 : k = p.title ++ "|" ++ p.artist ++ "|" ++ pyShow p.player
      · simp [h2]
      · rw [if_neg h2]
        exact hk
  · have hp2 : p.is_playing = false := by simpa using hp
    simp [get_current_song_info, hp2]

/-- Once `t::a` is in the cache, no later tick of the run triggers a catalog
search for `(t, a)` again. -/
theorem run_no_net_of_mem (norm : String → String) (w : ApiWorld) (t a : String) :
    ∀ (probes : List SongInfo) (st : RetrieverState),
      (List.lookup (t ++ "::" ++ a) st.song_cache).isSome = true →
      ((run_retriever norm w st probes).2.count (some (t, a))) = 0 := by
  intro probes
  induction probes with
  | nil =>
    intro st _
    simp [run_retriever]
  | cons p ps ih =>
    intro st h
    have hmono := (get_current_song_info_net norm w st p t a).2.2 _ h
    have hrest := ih _ hmono
    have hne : ¬ (get_current_song_info norm w st p).2.2 = some (t, a) := by
      intro hc
      have hnone := (get_current_song_info_net norm w st p t a).1 hc
      rw [hnone] at h
      simp at h
    simp [run_retriever, List.count_cons, hrest, hne]

/-- Over any run from any state, the catalog search fires at most once per
`(title, artist)` identity. -/
theorem run_net_once (norm : String → String) (w : ApiWorld) (t a : String) :
    ∀ (probes : List SongInfo) (st : RetrieverState),
      ((run_retriever norm w st probes).2.count (some (t, a))) ≤ 1 := by
  intro probes
  induction probes with
  | nil =>
    intro st
    simp [run_retriever]
  | cons p ps ih =>
    intro st
    by_cases hev : (get_current_song_info norm w st p).2.2 = some (t, a)
    · have hsome := (get_current_song_info_net norm w st p t a).2.1 hev
      have hz := run_no_net_of_mem norm w t a ps _ hsome
      simp [run_retriever, List.count_cons, hev, hz]
    · have hrest := ih (get_current_song_info norm w st p).2.1
      simp only [run_retriever, List.count_cons]
      simpa [hev] using hrest

/-- C1: within one process lifetime (a run from the fresh retriever state),
two aggregator calls whose probe reports the same playing (title, artist)
never trigger the network-touching catalog search twice: the search fires at
most once per identity, every later call for it being served from the
in-memory `song_cache` (either under the aggregator's `t|a|player` key or
`get_song_via_api`'s `t::a` key, which the first enrichment populated). -/
theorem cache_at_most_one_search (norm : String → String) (w : ApiWorld)
    (probes : List SongInfo) (t a : String) :
    ((run_retriever norm w emptyRetriever probes).2.count (some (t, a))) ≤ 1 :=
  run_net_once norm w t a probes emptyRetriever
